import Mathlib

/-!
Verification development for the MONROE usb-monitor supervisor.

The definitions below are a shallow embedding of `src/usb_monitor.c` together
with the headers `src/usb_monitor.h` and `src/usb_monitor_lists.h`.  Pointers
to `libusb_device` are modelled as natural-number handles (a port's possibly
NULL `dev` field becomes `Option Nat`); the global libusb reference counts are
modelled as a multiset `dev_refs : List Nat` of currently-held references
(`libusb_ref_device` conses the handle, `libusb_unref_device` erases one
occurrence).  Functions of this repository that live in files not present
under `src/` (`usb_helpers.c`, `usb_monitor_lists.c`, the ykush and gpio
handlers) are either taken as parameters or modelled from the spec; each such
definition carries a doc comment saying so.
-/

/-- The `port_msg` enumeration of `usb_monitor.h` (IDLE = 0, PING, RESET). -/
inductive PortMsg where
  | IDLE
  | PING
  | RESET
  deriving DecidableEq, Repr

/-- The `port_status` enumeration of `usb_monitor.h`
(PORT_NO_DEV_CONNECTED = 0, PORT_DEV_CONNECTED). -/
inductive PortStatus where
  | PORT_NO_DEV_CONNECTED
  | PORT_DEV_CONNECTED
  deriving DecidableEq, Repr

/-- The `power_state` enumeration of `usb_monitor.h` (POWER_OFF = 0, POWER_ON). -/
inductive PowerState where
  | POWER_OFF
  | POWER_ON
  deriving DecidableEq, Repr

/-- `DEFAULT_TIMEOUT_SEC` from `usb_monitor.h` line 13. -/
def DEFAULT_TIMEOUT_SEC : Nat := 5

/-- `ADDED_TIMEOUT_SEC` from `usb_monitor.h` line 14 (defined in the header,
referenced nowhere in the sources under `src/`). -/
def ADDED_TIMEOUT_SEC : Nat := 10

/-- Modelled from the spec (section 6): the YKUSH vendor id `0x04d8`
(`ykush_handler.h` is not among the sources). -/
def YKUSH_VID : Nat := 0x04d8

/-- Modelled from the spec (section 6): the YKUSH product id `0x0042`
(`ykush_handler.h` is not among the sources). -/
def YKUSH_PID : Nat := 0x0042

/-- The USB standard hub class code, `LIBUSB_CLASS_HUB = 9` in libusb. -/
def LIBUSB_CLASS_HUB : Nat := 9

/-- The fields of a `libusb_device` that `usb_monitor.c` reads: its identity
(the pointer value, modelled as a handle), the descriptor fields `idVendor`,
`idProduct` and `bDeviceClass`, and the topological path computed by
`usb_helpers_fill_port_array`. -/
structure Device where
  handle : Nat
  vid : Nat
  pid : Nat
  devClass : Nat
  path : List Nat
  deriving DecidableEq, Repr

/-- The fields of `struct usb_port` (macro `USB_PORT_MANDATORY` in
`usb_monitor.h`) that the supervision logic reads or writes.  `id` models the
struct's address (its identity across the port list and the timeout list);
the function-pointer fields `output`, `update` and `timeout` are supplied as
parameters of the operations that invoke them.  `dev = none` models a NULL
`dev` pointer. -/
structure UsbPort where
  id : Nat
  dev : Option Nat
  vid : Nat
  pid : Nat
  status : PortStatus
  pwr_state : PowerState
  msg_mode : PortMsg
  num_retrans : Nat
  timeout_expire : Nat
  path : List Nat
  deriving DecidableEq, Repr

/-- The parts of `struct usb_monitor_ctx` the verified operations touch:
`port_list`, the timeout collection (as the list of enrolled port ids, head =
most recently enrolled, mirroring `LIST_INSERT_HEAD`), and the global libusb
reference-count state `dev_refs` (a multiset of handles on which
`libusb_ref_device` has been called and not yet matched by an unref). -/
structure UsbMonitorCtx where
  port_list : List UsbPort
  timeout_list : List Nat
  dev_refs : List Nat
  deriving DecidableEq, Repr

/-- Modelled from the spec (section 4.1): `find_port_by_path` is a linear scan
with byte-equal comparison (`usb_monitor_lists.c` is not among the sources).
The embedding compares the whole stored path, which carries both the bytes and
the length. -/
def usb_monitor_lists_find_port_path (ctx : UsbMonitorCtx) (path : List Nat) :
    Option UsbPort :=
  ctx.port_list.find? (fun p => p.path == path)

/-- Modelled from the spec (section 4.1): `add_timeout` is idempotent with
respect to whether the port is already enrolled; enrollment inserts at the
head of the timeout collection (`usb_monitor_lists.c` is not among the
sources). -/
def usb_monitor_lists_add_timeout (ctx : UsbMonitorCtx) (pn : Nat) :
    UsbMonitorCtx :=
  if pn ∈ ctx.timeout_list then ctx
  else { ctx with timeout_list := pn :: ctx.timeout_list }

/-- Modelled from the spec (section 4.1): `remove_timeout` detaches the port
from the timeout collection and is idempotent (`usb_monitor_lists.c` is not
among the sources). -/
def usb_monitor_lists_del_timeout (ctx : UsbMonitorCtx) (pn : Nat) :
    UsbMonitorCtx :=
  { ctx with timeout_list := ctx.timeout_list.erase pn }

/-- Write back an updated port record: models in-place mutation of the struct
identified by its address `p'.id`. -/
def set_port (ctx : UsbMonitorCtx) (p' : UsbPort) : UsbMonitorCtx :=
  { ctx with
    port_list := ctx.port_list.map (fun q => if q.id = p'.id then p' else q) }

/-- Modelled from the spec: `usb_helpers_start_timeout` (`usb_helpers.c` is
not among the sources) sets the port's absolute microsecond deadline `sec`
seconds from `now` and enrolls the port in the timeout collection.  Section 3
gives the deadline as an absolute microsecond time; scenario 1 of section 8
shows that scheduling with `DEFAULT_TIMEOUT` yields a deadline of now + 5 s,
so the deadline is `now + sec * 10^6` with no hidden additions. -/
def usb_helpers_start_timeout (ctx : UsbMonitorCtx) (p : UsbPort)
    (sec now : Nat) : UsbMonitorCtx :=
  let ctx1 := set_port ctx { p with timeout_expire := now + sec * 1000000 }
  usb_monitor_lists_add_timeout ctx1 p.id

/-- Modelled from the spec (section 4.2): `usb_helpers_reset_port`
(`usb_helpers.c` is not among the sources) returns the port to its unbound
state: device handle cleared, status `NO_DEV`, message mode `IDLE`,
retransmission counter zeroed, timeout deenrolled; the device reference held
while a device was bound (section 3 invariant) is dropped. -/
def usb_helpers_reset_port (ctx : UsbMonitorCtx) (p : UsbPort) :
    UsbMonitorCtx :=
  let ctx1 :=
    match p.dev with
    | some h => { ctx with dev_refs := ctx.dev_refs.erase h }
    | none => ctx
  let ctx2 := set_port ctx1
    { p with dev := none, status := PortStatus.PORT_NO_DEV_CONNECTED,
             msg_mode := PortMsg.IDLE, num_retrans := 0 }
  usb_monitor_lists_del_timeout ctx2 p.id

/-- Embeds `usb_device_added` (`src/usb_monitor.c` lines 51-100).  `ykush`
abstracts `ykush_event_cb` (the ykush handler is not among the sources); `now`
is the wall-clock instant read inside `usb_helpers_start_timeout`.  The C
guard `port->dev && port->dev == dev` is `port.dev = some d.handle`: a libusb
device argument is never NULL, so NULL is modelled only by `none`. -/
def usb_device_added (ykush : UsbMonitorCtx → Device → UsbMonitorCtx)
    (ctx : UsbMonitorCtx) (d : Device) (now : Nat) : UsbMonitorCtx :=
  if d.vid = YKUSH_VID ∧ d.pid = YKUSH_PID then ykush ctx d
  else
    match usb_monitor_lists_find_port_path ctx d.path with
    | none => ctx
    | some port =>
      if port.dev = some d.handle then ctx
      else
        let port' := { port with
          vid := d.vid, pid := d.pid,
          status := PortStatus.PORT_DEV_CONNECTED,
          dev := some d.handle, msg_mode := PortMsg.PING }
        let ctx1 := set_port ctx port'
        let ctx2 := { ctx1 with dev_refs := d.handle :: ctx1.dev_refs }
        usb_helpers_start_timeout ctx2 port' DEFAULT_TIMEOUT_SEC now

/-- Embeds `usb_device_removed` (`src/usb_monitor.c` lines 102-116): resolve
the departing device's path to a port; if none is found return silently,
otherwise reset the port.  The source performs no comparison between the
port's bound device and the departing one. -/
def usb_device_removed (ctx : UsbMonitorCtx) (d : Device) : UsbMonitorCtx :=
  match usb_monitor_lists_find_port_path ctx d.path with
  | none => ctx
  | some port => usb_helpers_reset_port ctx port

/-- The two libusb hotplug event kinds the callback distinguishes. -/
inductive HotplugEvent where
  | arrived
  | left
  deriving DecidableEq, Repr

/-- Embeds `usb_monitor_cb` (`src/usb_monitor.c` lines 119-147): route YKUSH
devices to the ykush handler, ignore other hub-class devices, and dispatch
the rest to `usb_device_added` / `usb_device_removed`. -/
def usb_monitor_cb (ykush : UsbMonitorCtx → Device → UsbMonitorCtx)
    (ctx : UsbMonitorCtx) (d : Device) (ev : HotplugEvent) (now : Nat) :
    UsbMonitorCtx :=
  if d.vid = YKUSH_VID ∧ d.pid = YKUSH_PID then ykush ctx d
  else if d.devClass = LIBUSB_CLASS_HUB then ctx
  else
    match ev with
    | HotplugEvent.arrived => usb_device_added ykush ctx d now
    | HotplugEvent.left => usb_device_removed ctx d

/-- Modelled from the spec: the backend `update` capability (the ykush and
gpio handlers are not among the sources).  Per sections 4.4 step 2 and 4.5
(property P5), `update` begins a reset of the port — message mode `RESET`,
assumed power state `OFF` — subject to the rule that a port already in
`RESET` is not re-entered, in which case the port is left untouched.  Effects
outside the port record (the power-off control transfer, arming the hold
timer) are not needed for the properties proved here. -/
def backend_update (p : UsbPort) : UsbPort :=
  if p.msg_mode = PortMsg.RESET then p
  else { p with msg_mode := PortMsg.RESET, pwr_state := PowerState.POWER_OFF }

/-- Embeds `usb_monitor_reset_all_ports` (`src/usb_monitor.c` lines 35-46):
walk the port list and invoke `upd` (the port's `update` function pointer) on
a port when `forced` is set, or when the port has no device connected and is
not currently being reset.  Returns the updated port list together with the
ids of the ports on which `upd` was invoked, in walk order. -/
def usb_monitor_reset_all_ports (upd : UsbPort → UsbPort) (forced : Bool) :
    List UsbPort → List UsbPort × List Nat
  | [] => ([], [])
  | p :: rest =>
    let r := usb_monitor_reset_all_ports upd forced rest
    if forced ∨ (p.status = PortStatus.PORT_NO_DEV_CONNECTED ∧
                 p.msg_mode ≠ PortMsg.RESET) then
      (upd p :: r.1, p.id :: r.2)
    else
      (p :: r.1, r.2)

/-- Embeds `usb_monitor_signal_handler` (`src/usb_monitor.c` lines 285-289):
the SIGUSR1 handler performs a forced sweep, `usb_monitor_reset_all_ports`
with `forced = 1`. -/
def usb_monitor_signal_handler (upd : UsbPort → UsbPort)
    (ports : List UsbPort) : List UsbPort × List Nat :=
  usb_monitor_reset_all_ports upd true ports

/-- Observable events of one timeout scan, in order: `detach p` records the
call to `usb_monitor_lists_del_timeout` on port `p`, `invoke p` the call to
the port's `timeout` function pointer. -/
inductive TimeoutEvent where
  | detach (pn : Nat)
  | invoke (pn : Nat)
  deriving DecidableEq, Repr

/-- Walk of `usb_monitor_check_timeouts` (`src/usb_monitor.c` lines 160-171)
over the timeout list.  `h p` abstracts the port's `timeout` handler: it
returns the port's new state and whether the handler re-enrolled the port in
the timeout collection (re-enrollment is a head insertion, which the saved
next pointer of the walk never revisits).  Returns
(re-enrolled ports, reverse walk order because each insertion is at the head)
× (surviving ports, in place) × (event trace). -/
def check_timeouts_walk (h : UsbPort → UsbPort × Bool) (cur : Nat) :
    List UsbPort → List UsbPort × List UsbPort × List TimeoutEvent
  | [] => ([], [], [])
  | p :: rest =>
    let r := check_timeouts_walk h cur rest
    if cur ≥ p.timeout_expire then
      let hp := h p
      if hp.2 then
        (r.1 ++ [hp.1], r.2.1,
         TimeoutEvent.detach p.id :: TimeoutEvent.invoke p.id :: r.2.2)
      else
        (r.1, r.2.1,
         TimeoutEvent.detach p.id :: TimeoutEvent.invoke p.id :: r.2.2)
    else
      (r.1, p :: r.2.1, r.2.2)

/-- Embeds `usb_monitor_check_timeouts` (`src/usb_monitor.c` lines 149-172):
scan the timeout list at time `cur`; each expired port is detached and its
handler invoked; the resulting timeout list is the head-inserted re-enrolled
ports followed by the surviving enrollees in their original order.  Returns
the new timeout list and the event trace. -/
def usb_monitor_check_timeouts (h : UsbPort → UsbPort × Bool) (cur : Nat)
    (timeout_list : List UsbPort) : List UsbPort × List TimeoutEvent :=
  let r := check_timeouts_walk h cur timeout_list
  (r.1 ++ r.2.1, r.2.2)

/-- The two wall-clock timestamps the event loop tracks (`last_restart` and
`last_dev_check` in `main`), in seconds (`tv_sec`, a signed count). -/
structure LoopTimes where
  last_restart : Int
  last_dev_check : Int
  deriving DecidableEq, Repr

/-- Embeds the periodic-sweep scheduling at the bottom of `main`'s event loop
(`src/usb_monitor.c` lines 395-404): at current second `cur`, run the
full-device sweep when more than 30 seconds have passed since the last one,
else run the restart sweep when more than 60 seconds have passed since the
last restart.  Returns (device sweep ran, restart sweep ran, updated
timestamps). -/
def loop_tick_sweeps (cur : Int) (t : LoopTimes) : Bool × Bool × LoopTimes :=
  if cur - t.last_dev_check > 30 then
    (true, false, { t with last_dev_check := cur })
  else if cur - t.last_restart > 60 then
    (false, true, { t with last_restart := cur })
  else
    (false, false, t)

/-- Configuration values as `usb_monitor_parse_config` inspects them.  The
top-level mapping is a `List (String × TopVal)` in insertion order (the
json-c object table, whose `head` entry the source reads); a `TopVal` is
either an array of handler objects or anything else; a handler object is a
`List (String × HVal)` of its fields in insertion order
(`json_object_object_foreach` order). -/
inductive HVal where
  | hstr (s : String)
  | hother
  deriving DecidableEq, Repr

/-- A handler element of the `handlers` array: its fields in order. -/
abbrev HandlerObj := List (String × HVal)

/-- A top-level configuration value. -/
inductive TopVal where
  | tarr (hs : List HandlerObj)
  | tother
  deriving DecidableEq, Repr

/-- The view `json_object_get_string` gives of a handler field value: the
string itself for a string value, and the JSON serialization otherwise.  A
serialized non-string (digits, `[`..., `\x7b`..., `true`, `false`, `null`)
can never equal a handler name such as `GPIO`, so the embedding returns a
fixed non-name text. -/
def json_object_get_string : HVal → String
  | HVal.hstr s => s
  | HVal.hother => "<non-string>"

/-- The `json_object_object_foreach` loop over one handler element
(`src/usb_monitor.c` lines 190-201): record the `name` and `ports` values,
and stop with the unknown-element flag on any other key. -/
def parse_handler_fields : HandlerObj → Option String → Option HVal →
    Option String × Option HVal × Bool
  | [], hn, ho => (hn, ho, false)
  | (k, v) :: rest, hn, ho =>
    if k = "name" then
      parse_handler_fields rest (some (json_object_get_string v)) ho
    else if k = "ports" then
      parse_handler_fields rest hn (some v)
    else
      (hn, ho, true)

/-- Embeds `usb_monitor_parse_handlers` (`src/usb_monitor.c` lines 174-218):
iterate the handler array; an element with a missing `name`, a missing
`ports`, or an unknown key fails; a `name` other than `GPIO` fails; a `GPIO`
element is handed to `gpio_handler_parse_json` (abstracted as `g`, nonzero
meaning failure).  Returns 0 on success, 1 on failure. -/
def usb_monitor_parse_handlers (g : HVal → Nat) : List HandlerObj → Nat
  | [] => 0
  | elem :: rest =>
    match parse_handler_fields elem none none with
    | (some nm, some ho, false) =>
      if nm = "GPIO" then
        if g ho ≠ 0 then 1 else usb_monitor_parse_handlers g rest
      else 1
    | _ => 1

/-- Embeds the post-parse part of `usb_monitor_parse_config`
(`src/usb_monitor.c` lines 260-282), starting from the successfully parsed
top-level JSON object (file reading and tokenizing are json-c library calls).
The source reads only the head entry of the object table: it fails if that
first key is not `handlers` or its value is not an array, and otherwise hands
the array to `usb_monitor_parse_handlers`.  On an empty object the source
dereferences a NULL `head`; the embedding maps that unreachable case to
failure.  Returns 0 on success, 1 on failure. -/
def usb_monitor_parse_config (g : HVal → Nat)
    (conf : List (String × TopVal)) : Nat :=
  match conf with
  | [] => 1
  | (k, v) :: _ =>
    if k ≠ "handlers" then 1
    else
      match v with
      | TopVal.tarr hs => usb_monitor_parse_handlers g hs
      | TopVal.tother => 1

/-- A handler element that `usb_monitor_parse_handlers` rejects on its own:
its field scan ends with the unknown-element flag set, leaves `name` or
`ports` unset, or yields a `name` other than `GPIO`. -/
def bad_handler_elem (e : HandlerObj) : Bool :=
  match parse_handler_fields e none none with
  | (some nm, some _, false) => nm != "GPIO"
  | _ => true

/-- C9: processing a device arrival is idempotent with respect to an
already-bound port.  If the port resolved by the device's path already holds
exactly this device handle, the arrival returns the context unchanged: every
port field keeps its value, no additional device reference is taken, and the
timeout collection is untouched. -/
theorem usb_device_added_idempotent
    (ykush : UsbMonitorCtx → Device → UsbMonitorCtx)
    (ctx : UsbMonitorCtx) (d : Device) (now : Nat) (port : UsbPort)
    (hyk : ¬(d.vid = YKUSH_VID ∧ d.pid = YKUSH_PID))
    (hfind : usb_monitor_lists_find_port_path ctx d.path = some port)
    (hdev : port.dev = some d.handle) :
    usb_device_added ykush ctx d now = ctx := by
  unfold usb_device_added
  rw [if_neg hyk, hfind]
  simp [hdev]

/-- Closed instance of `usb_device_added_idempotent`: a second arrival of the
device with handle 7 at path [1, 2] leaves the context unchanged. -/
theorem usb_device_added_idempotent_witness :
    usb_device_added (fun c _ => c)
      ⟨[⟨1, some 7, 4369, 8738, PortStatus.PORT_DEV_CONNECTED,
         PowerState.POWER_ON, PortMsg.PING, 0, 0, [1, 2]⟩], [1], [7]⟩
      ⟨7, 4369, 8738, 0, [1, 2]⟩ 1000 =
      ⟨[⟨1, some 7, 4369, 8738, PortStatus.PORT_DEV_CONNECTED,
         PowerState.POWER_ON, PortMsg.PING, 0, 0, [1, 2]⟩], [1], [7]⟩ :=
  usb_device_added_idempotent _ _ _ _
    ⟨1, some 7, 4369, 8738, PortStatus.PORT_DEV_CONNECTED,
     PowerState.POWER_ON, PortMsg.PING, 0, 0, [1, 2]⟩
    (by decide) (by decide) (by decide)

/-- C10: a device arriving at a path whose port is bound to a different,
non-empty device handle rebinds the port.  The bound port's dev/vid/pid are
overwritten, status becomes DEV_CONNECTED, message mode PING, the deadline is
restarted, a reference is taken on the new device, the port is enrolled in
the timeout collection (idempotently), every other port is untouched, and no
departure handling or reference release happens for the previously bound
device: its reference count is unchanged. -/
theorem usb_device_added_rebind
    (ykush : UsbMonitorCtx → Device → UsbMonitorCtx)
    (ctx : UsbMonitorCtx) (d : Device) (now : Nat) (port : UsbPort) (h0 : Nat)
    (hyk : ¬(d.vid = YKUSH_VID ∧ d.pid = YKUSH_PID))
    (hfind : usb_monitor_lists_find_port_path ctx d.path = some port)
    (hdev : port.dev = some h0)
    (hne : h0 ≠ d.handle) :
    usb_device_added ykush ctx d now =
      { port_list := ctx.port_list.map (fun q =>
          if q.id = port.id then
            { port with
                vid := d.vid, pid := d.pid,
                status := PortStatus.PORT_DEV_CONNECTED,
                dev := some d.handle, msg_mode := PortMsg.PING,
                timeout_expire := now + DEFAULT_TIMEOUT_SEC * 1000000 }
          else q),
        timeout_list :=
          if port.id ∈ ctx.timeout_list then ctx.timeout_list
          else port.id :: ctx.timeout_list,
        dev_refs := d.handle :: ctx.dev_refs } ∧
    (d.handle :: ctx.dev_refs).count h0 = ctx.dev_refs.count h0 := by
  constructor
  · have hne' : ¬(port.dev = some d.handle) := by
      rw [hdev]
      simp [hne]
    simp only [usb_device_added, hfind, if_neg hyk, if_neg hne',
               usb_helpers_start_timeout, usb_monitor_lists_add_timeout,
               set_port, List.map_map]
    by_cases hmem : port.id ∈ ctx.timeout_list <;>
      simp only [hmem, if_pos, if_neg, ite_true, ite_false, not_false_iff] <;>
      refine congrArg₂
        (fun a b => UsbMonitorCtx.mk a b (d.handle :: ctx.dev_refs)) ?_ rfl <;>
      refine List.map_congr_left ?_ <;>
      intro q _ <;>
      by_cases hq : q.id = port.id <;>
      simp [hq]
  · simp [List.count_cons, Ne.symm hne]

/-- Closed instance of `usb_device_added_rebind`: device 7 arrives at path
[1, 2] whose port is bound to device 5; the port is rebound to 7 with a fresh
5-second deadline, device 5 keeps its reference. -/
theorem usb_device_added_rebind_witness :
    usb_device_added (fun c _ => c)
      ⟨[⟨1, some 5, 10, 11, PortStatus.PORT_DEV_CONNECTED, PowerState.POWER_ON,
         PortMsg.PING, 2, 999, [1, 2]⟩], [], [5]⟩
      ⟨7, 100, 200, 0, [1, 2]⟩ 50 =
      ⟨[⟨1, some 7, 100, 200, PortStatus.PORT_DEV_CONNECTED,
         PowerState.POWER_ON, PortMsg.PING, 2, 5000050, [1, 2]⟩],
       [1], [7, 5]⟩ ∧
    ([7, 5] : List Nat).count 5 = ([5] : List Nat).count 5 := by
  have h := usb_device_added_rebind (fun c _ => c)
      ⟨[⟨1, some 5, 10, 11, PortStatus.PORT_DEV_CONNECTED, PowerState.POWER_ON,
         PortMsg.PING, 2, 999, [1, 2]⟩], [], [5]⟩
      ⟨7, 100, 200, 0, [1, 2]⟩ 50
      ⟨1, some 5, 10, 11, PortStatus.PORT_DEV_CONNECTED, PowerState.POWER_ON,
       PortMsg.PING, 2, 999, [1, 2]⟩ 5
      (by decide) (by decide) (by decide) (by decide)
  exact ⟨h.1.trans (by decide), h.2⟩

/-- C1 (evaluation at the failing input): a device arrival that binds a
device to an existing port caches vid/pid, sets DEV_CONNECTED and PING, takes
a device reference and enrolls the port — but the enrolled deadline is
`now + DEFAULT_TIMEOUT_SEC` seconds (line 99 passes `DEFAULT_TIMEOUT_SEC`,
five seconds), which differs from the ten-second deadline
(`ADDED_TIMEOUT_SEC`) that the comment above the call and the claim require. -/
theorem usb_device_added_deadline_is_five_seconds :
    usb_device_added (fun c _ => c)
      ⟨[⟨1, none, 0, 0, PortStatus.PORT_NO_DEV_CONNECTED, PowerState.POWER_ON,
         PortMsg.IDLE, 0, 0, [1, 2]⟩], [], []⟩
      ⟨7, 100, 200, 0, [1, 2]⟩ 1000000 =
      ⟨[⟨1, some 7, 100, 200, PortStatus.PORT_DEV_CONNECTED,
         PowerState.POWER_ON, PortMsg.PING, 0,
         1000000 + DEFAULT_TIMEOUT_SEC * 1000000, [1, 2]⟩], [1], [7]⟩ ∧
    1000000 + DEFAULT_TIMEOUT_SEC * 1000000 ≠
      1000000 + ADDED_TIMEOUT_SEC * 1000000 := by
  decide

/-- C8 counterexample: a hub-class device (class 9) that is not a YKUSH,
arriving through `usb_device_added` (the entry point the manual device walk
invokes, per the comment at `src/usb_monitor.c` lines 61-66), is bound to the
port at its path: the registry state changes, against the claim. -/
theorem usb_device_added_hub_class_counterexample :
    usb_device_added (fun c _ => c)
      ⟨[⟨1, none, 0, 0, PortStatus.PORT_NO_DEV_CONNECTED, PowerState.POWER_ON,
         PortMsg.IDLE, 0, 0, [1, 2]⟩], [], []⟩
      ⟨7, 100, 200, LIBUSB_CLASS_HUB, [1, 2]⟩ 0 ≠
      ⟨[⟨1, none, 0, 0, PortStatus.PORT_NO_DEV_CONNECTED, PowerState.POWER_ON,
         PortMsg.IDLE, 0, 0, [1, 2]⟩], [], []⟩ ∧
    (usb_device_added (fun c _ => c)
      ⟨[⟨1, none, 0, 0, PortStatus.PORT_NO_DEV_CONNECTED, PowerState.POWER_ON,
         PortMsg.IDLE, 0, 0, [1, 2]⟩], [], []⟩
      ⟨7, 100, 200, LIBUSB_CLASS_HUB, [1, 2]⟩ 0).port_list.map
        (fun p => p.status) = [PortStatus.PORT_DEV_CONNECTED] := by
  decide

/-- C8 (amended): the hotplug callback ignores a non-YKUSH hub-class arrival
— no port state changes —, while `usb_device_added`, the entry point the
manual device walk calls directly, never reads the device class: its result
is the same whatever the class, so a hub-class device is bound like any
ordinary device there. -/
theorem usb_monitor_cb_hub_filter_added_class_blind :
    (∀ (ykush : UsbMonitorCtx → Device → UsbMonitorCtx) ctx d ev now,
       d.devClass = LIBUSB_CLASS_HUB →
       ¬(d.vid = YKUSH_VID ∧ d.pid = YKUSH_PID) →
       usb_monitor_cb ykush ctx d ev now = ctx) ∧
    (∀ (ykush : UsbMonitorCtx → Device → UsbMonitorCtx) ctx d c' now,
       ¬(d.vid = YKUSH_VID ∧ d.pid = YKUSH_PID) →
       usb_device_added ykush ctx d now =
         usb_device_added ykush ctx { d with devClass := c' } now) := by
  constructor
  · intro ykush ctx d ev now hclass hyk
    simp [usb_monitor_cb, hclass, hyk]
  · intro ykush ctx d c' now hyk
    rcases d with ⟨h, v, pd, dc, pa⟩
    simp only [usb_device_added]
    rw [if_neg hyk, if_neg hyk]

/-- Closed instance of `usb_monitor_cb_hub_filter_added_class_blind`: the
callback leaves the context unchanged for a concrete non-YKUSH hub-class
arrival, and `usb_device_added` gives the same result for that device with
class 9 and with class 0. -/
theorem usb_monitor_cb_hub_filter_added_class_blind_witness :
    usb_monitor_cb (fun c _ => c)
      ⟨[⟨1, none, 0, 0, PortStatus.PORT_NO_DEV_CONNECTED, PowerState.POWER_ON,
         PortMsg.IDLE, 0, 0, [1, 2]⟩], [], []⟩
      ⟨7, 100, 200, 9, [1, 2]⟩ HotplugEvent.arrived 0 =
      ⟨[⟨1, none, 0, 0, PortStatus.PORT_NO_DEV_CONNECTED, PowerState.POWER_ON,
         PortMsg.IDLE, 0, 0, [1, 2]⟩], [], []⟩ ∧
    usb_device_added (fun c _ => c)
      ⟨[⟨1, none, 0, 0, PortStatus.PORT_NO_DEV_CONNECTED, PowerState.POWER_ON,
         PortMsg.IDLE, 0, 0, [1, 2]⟩], [], []⟩
      ⟨7, 100, 200, 9, [1, 2]⟩ 0 =
    usb_device_added (fun c _ => c)
      ⟨[⟨1, none, 0, 0, PortStatus.PORT_NO_DEV_CONNECTED, PowerState.POWER_ON,
         PortMsg.IDLE, 0, 0, [1, 2]⟩], [], []⟩
      ⟨7, 100, 200, 0, [1, 2]⟩ 0 :=
  ⟨usb_monitor_cb_hub_filter_added_class_blind.1 _ _ _ _ _
     (by decide) (by decide),
   usb_monitor_cb_hub_filter_added_class_blind.2 _ _ _ 0 _ (by decide)⟩

/-- C2 counterexample: device 5 departs at path [1, 2] while the port at that
path holds the different device handle 7.  The departure is not ignored: the
port is reset (device binding cleared, status NO_DEV, message mode IDLE,
retransmission counter zeroed, timeout deenrolled), so the claimed
unchanged-state property fails at this input. -/
theorem usb_device_removed_mismatch_counterexample :
    usb_device_removed
      ⟨[⟨1, some 7, 10, 11, PortStatus.PORT_DEV_CONNECTED, PowerState.POWER_ON,
         PortMsg.PING, 3, 42, [1, 2]⟩], [1], [7]⟩
      ⟨5, 100, 200, 0, [1, 2]⟩ =
      ⟨[⟨1, none, 10, 11, PortStatus.PORT_NO_DEV_CONNECTED,
         PowerState.POWER_ON, PortMsg.IDLE, 0, 42, [1, 2]⟩], [], []⟩ ∧
    (⟨[⟨1, some 7, 10, 11, PortStatus.PORT_DEV_CONNECTED, PowerState.POWER_ON,
        PortMsg.PING, 3, 42, [1, 2]⟩], [1], [7]⟩ : UsbMonitorCtx) ≠
      ⟨[⟨1, none, 10, 11, PortStatus.PORT_NO_DEV_CONNECTED,
         PowerState.POWER_ON, PortMsg.IDLE, 0, 42, [1, 2]⟩], [], []⟩ := by
  decide

/-- C2 (amended): a departure whose path resolves to a port resets that port
— device binding cleared, status NO_DEV, message mode IDLE, retransmission
counter zeroed, timeout deenrolled, held reference dropped — regardless of
which device handle the port currently holds; only a departure whose path
resolves to no port is silently ignored. -/
theorem usb_device_removed_resets_found_port :
    (∀ ctx d port,
       usb_monitor_lists_find_port_path ctx d.path = some port →
       usb_device_removed ctx d =
         { port_list := ctx.port_list.map (fun q =>
             if q.id = port.id then
               { port with
                   dev := none, status := PortStatus.PORT_NO_DEV_CONNECTED,
                   msg_mode := PortMsg.IDLE, num_retrans := 0 }
             else q),
           timeout_list := ctx.timeout_list.erase port.id,
           dev_refs :=
             (match port.dev with
              | some h => ctx.dev_refs.erase h
              | none => ctx.dev_refs) }) ∧
    (∀ ctx d,
       usb_monitor_lists_find_port_path ctx d.path = none →
       usb_device_removed ctx d = ctx) := by
  constructor
  · intro ctx d port hfind
    simp only [usb_device_removed, hfind, usb_helpers_reset_port, set_port,
               usb_monitor_lists_del_timeout]
    cases hdev : port.dev <;> simp [hdev]
  · intro ctx d hfind
    simp [usb_device_removed, hfind]

/-- Closed instance of `usb_device_removed_resets_found_port`: a departure
whose path matches the port holding a different handle resets that port, and
a departure at an unknown path leaves the context unchanged. -/
theorem usb_device_removed_resets_found_port_witness :
    usb_device_removed
      ⟨[⟨1, some 7, 10, 11, PortStatus.PORT_DEV_CONNECTED, PowerState.POWER_ON,
         PortMsg.PING, 3, 42, [1, 2]⟩], [1], [7]⟩
      ⟨5, 100, 200, 0, [1, 2]⟩ =
      ⟨[⟨1, none, 10, 11, PortStatus.PORT_NO_DEV_CONNECTED,
         PowerState.POWER_ON, PortMsg.IDLE, 0, 42, [1, 2]⟩], [], []⟩ ∧
    usb_device_removed
      ⟨[⟨1, some 7, 10, 11, PortStatus.PORT_DEV_CONNECTED, PowerState.POWER_ON,
         PortMsg.PING, 3, 42, [1, 2]⟩], [1], [7]⟩
      ⟨5, 100, 200, 0, [9]⟩ =
      ⟨[⟨1, some 7, 10, 11, PortStatus.PORT_DEV_CONNECTED, PowerState.POWER_ON,
         PortMsg.PING, 3, 42, [1, 2]⟩], [1], [7]⟩ := by
  have h := usb_device_removed_resets_found_port
  refine ⟨(h.1 _ _ ⟨1, some 7, 10, 11, PortStatus.PORT_DEV_CONNECTED,
    PowerState.POWER_ON, PortMsg.PING, 3, 42, [1, 2]⟩ (by decide)).trans
      (by decide), h.2 _ _ (by decide)⟩

/-- C3: the forced reset sweep triggered by the SIGUSR1 handler invokes the
backend update on every port (walk order); a port already in RESET is
returned unchanged by the update's re-entry guard, and every other port
transitions to RESET (with assumed power OFF), regardless of its current
state or device presence. -/
theorem usb_monitor_signal_forced_sweep (ports : List UsbPort) :
    usb_monitor_signal_handler backend_update ports =
      (ports.map (fun p =>
         if p.msg_mode = PortMsg.RESET then p
         else { p with
                  msg_mode := PortMsg.RESET,
                  pwr_state := PowerState.POWER_OFF }),
       ports.map (fun p => p.id)) := by
  induction ports with
  | nil => rfl
  | cons p rest ih =>
    simp only [usb_monitor_signal_handler, usb_monitor_reset_all_ports] at ih ⊢
    simp [ih, backend_update]

/-- C5: the periodic (non-forced) restart sweep invokes the update operation
exactly on the ports whose status is NO_DEV and whose message mode is not
RESET (the second returned list collects precisely their ids, in walk order);
all other ports pass through the sweep unchanged. -/
theorem usb_monitor_reset_all_ports_periodic (upd : UsbPort → UsbPort)
    (ports : List UsbPort) :
    usb_monitor_reset_all_ports upd false ports =
      (ports.map (fun p =>
         if p.status = PortStatus.PORT_NO_DEV_CONNECTED ∧
            p.msg_mode ≠ PortMsg.RESET then upd p else p),
       (ports.filter (fun p =>
          decide (p.status = PortStatus.PORT_NO_DEV_CONNECTED ∧
                  p.msg_mode ≠ PortMsg.RESET))).map (fun p => p.id)) := by
  induction ports with
  | nil => rfl
  | cons p rest ih =>
    simp only [usb_monitor_reset_all_ports, List.map_cons, List.filter_cons]
    by_cases hc : p.status = PortStatus.PORT_NO_DEV_CONNECTED ∧
        p.msg_mode ≠ PortMsg.RESET <;>
      simp [hc, ih]

/-- Characterization of one pass of `check_timeouts_walk`: the re-enrolled
ports are the handler outputs of the expired ports that chose to re-enroll
(reversed, because each re-enrollment is a head insertion); the survivors are
exactly the non-expired ports, unchanged and in order; and the event trace
detaches each expired port immediately before invoking its handler, in walk
order. -/
theorem check_timeouts_walk_spec (h : UsbPort → UsbPort × Bool) (cur : Nat)
    (tl : List UsbPort) :
    check_timeouts_walk h cur tl =
      (((tl.filter (fun p => decide (cur ≥ p.timeout_expire))).filterMap
          (fun p => if (h p).2 then some (h p).1 else none)).reverse,
       tl.filter (fun p => !decide (cur ≥ p.timeout_expire)),
       (tl.filter (fun p => decide (cur ≥ p.timeout_expire))).flatMap
         (fun p => [TimeoutEvent.detach p.id, TimeoutEvent.invoke p.id])) := by
  induction tl with
  | nil => rfl
  | cons p rest ih =>
    simp only [check_timeouts_walk, List.filter_cons, List.filterMap_cons]
    by_cases he : cur ≥ p.timeout_expire
    · by_cases hr : (h p).2 = true <;> simp [he, hr, ih]
    · simp [he, ih]

/-- C4: in one timeout scan at time `cur`, exactly the enrolled ports whose
deadline is less than or equal to `cur` are processed: each is detached from
the timeout collection and only then has its handler invoked (the event
trace is `detach p` immediately followed by `invoke p`, in scan order, for
precisely the expired ports); ports whose deadline has not passed remain
enrolled, unchanged, and their handler is not invoked. -/
theorem usb_monitor_check_timeouts_scan (h : UsbPort → UsbPort × Bool)
    (cur : Nat) (tl : List UsbPort) :
    usb_monitor_check_timeouts h cur tl =
      (((tl.filter (fun p => decide (cur ≥ p.timeout_expire))).filterMap
          (fun p => if (h p).2 then some (h p).1 else none)).reverse ++
         tl.filter (fun p => !decide (cur ≥ p.timeout_expire)),
       (tl.filter (fun p => decide (cur ≥ p.timeout_expire))).flatMap
         (fun p => [TimeoutEvent.detach p.id, TimeoutEvent.invoke p.id])) := by
  unfold usb_monitor_check_timeouts
  rw [check_timeouts_walk_spec]

/-- C6: in each tick of the event loop, the 30-second full-device sweep and
the 60-second restart sweep never both run; the device sweep runs exactly
when more than 30 seconds have passed since the last device check, and the
restart sweep exactly when that guard failed and more than 60 seconds have
passed since the last restart. -/
theorem loop_tick_sweeps_exclusive (cur : Int) (t : LoopTimes) :
    ¬((loop_tick_sweeps cur t).1 = true ∧
      (loop_tick_sweeps cur t).2.1 = true) ∧
    ((loop_tick_sweeps cur t).1 = true ↔ cur - t.last_dev_check > 30) ∧
    ((loop_tick_sweeps cur t).2.1 = true ↔
       (cur - t.last_dev_check ≤ 30 ∧ cur - t.last_restart > 60)) := by
  unfold loop_tick_sweeps
  split_ifs with h1 h2 <;> simp_all [not_lt]
  omega

/-- C7 counterexample: a configuration whose first top-level key is
`handlers` (with an empty, well-formed handler array) parses successfully
even though a second, unknown top-level key `bogus` is present: the source
inspects only the head entry of the object table, so the claim's
quantification over every top-level key fails. -/
theorem usb_monitor_parse_config_second_key_counterexample :
    usb_monitor_parse_config (fun _ => 0)
      [("handlers", TopVal.tarr []), ("bogus", TopVal.tother)] = 0 := by
  decide

/-- C7 (amended): configuration parsing fails whenever the first top-level
key is not `handlers`; top-level keys after the first are never examined (the
result does not depend on them); a first key `handlers` bound to an array
hands the array to the handler walk; and the handler walk fails whenever any
element has a key other than `name` and `ports`, lacks `name` or `ports`, or
carries a `name` other than `GPIO`. -/
theorem usb_monitor_parse_config_failure_modes :
    (∀ (g : HVal → Nat) k v rest, k ≠ "handlers" →
       usb_monitor_parse_config g ((k, v) :: rest) = 1) ∧
    (∀ (g : HVal → Nat) k v rest rest',
       usb_monitor_parse_config g ((k, v) :: rest) =
         usb_monitor_parse_config g ((k, v) :: rest')) ∧
    (∀ (g : HVal → Nat) hs rest,
       usb_monitor_parse_config g (("handlers", TopVal.tarr hs) :: rest) =
         usb_monitor_parse_handlers g hs) ∧
    (∀ (g : HVal → Nat) hs, (∃ e ∈ hs, bad_handler_elem e = true) →
       usb_monitor_parse_handlers g hs = 1) := by
  refine ⟨?_, ?_, ?_, ?_⟩
  · intro g k v rest hk
    simp [usb_monitor_parse_config, hk]
  · intro g k v rest rest'
    rfl
  · intro g hs rest
    rfl
  · intro g hs
    induction hs with
    | nil =>
      rintro ⟨e, he, -⟩
      cases he
    | cons e0 rest ih =>
      rintro ⟨e, he, hbad⟩
      have hstep : usb_monitor_parse_handlers g (e0 :: rest) =
          match parse_handler_fields e0 none none with
          | (some nm, some ho, false) =>
            if nm = "GPIO" then
              if g ho ≠ 0 then 1 else usb_monitor_parse_handlers g rest
            else 1
          | _ => 1 := rfl
      rw [hstep]
      rcases hps : parse_handler_fields e0 none none with ⟨onm, oo, u⟩
      have hbad0 : bad_handler_elem e0 =
          (match (onm, oo, u) with
           | (some nm, some _, false) => nm != "GPIO"
           | _ => true) := by
        unfold bad_handler_elem
        rw [hps]
      rcases onm with - | nm
      · simp
      rcases oo with - | ho
      · simp
      rcases u
      · by_cases hnm : nm = "GPIO"
        · simp only [hnm, if_pos rfl]
          by_cases hg : g ho ≠ 0
          · simp [hg]
          · simp only [hg, if_neg, ite_false, ite_true, not_false_iff]
            rcases List.mem_cons.mp he with he0 | her
            · subst he0
              rw [hbad0] at hbad
              simp [hnm] at hbad
            · exact ih ⟨e, her, hbad⟩
        · simp [hnm]
      · simp

/-- Closed instance of `usb_monitor_parse_config_failure_modes`: a first
top-level key `gpio` fails; a handler element with the unknown key `weird`
makes the handler walk fail. -/
theorem usb_monitor_parse_config_failure_modes_witness :
    usb_monitor_parse_config (fun _ => 0) [("gpio", TopVal.tother)] = 1 ∧
    usb_monitor_parse_handlers (fun _ => 0)
      [[("weird", HVal.hother)]] = 1 :=
  ⟨usb_monitor_parse_config_failure_modes.1 (fun _ => 0) "gpio"
     TopVal.tother [] (by decide),
   usb_monitor_parse_config_failure_modes.2.2.2 (fun _ => 0)
     [[("weird", HVal.hother)]]
     ⟨[("weird", HVal.hother)], by decide, by decide⟩⟩
